import Mathlib

/-!
# Gs201CommonDataProviders: power-stats board configuration

A shallow embedding of `powerstats/Gs201CommonDataProviders.cpp`: the unit
transforms, the state-residency configuration tables, the placeholder
Wifi/BT energy consumer and the registration sequence of
`addGs201CommonDataProviders`, followed by the properties proved about them.

Machine integers are `Nat`/`Int` with explicit reduction modulo `2^64`.
-/

namespace Gs201

/-! ## Machine integers -/

/-- Number of values of a 64-bit word. -/
def U64_MOD : Nat := 2 ^ 64

/-- Conversion of a C++ `int` operand to `uint64_t` (usual arithmetic
conversions when the other operand is `uint64_t`). -/
def intToU64 (i : Int) : Nat := (i % (U64_MOD : Int)).toNat

/-- Two's-complement reduction of an integer into the `int64_t` range. -/
def wrapI64 (x : Int) : Int := (x + 2 ^ 63) % 2 ^ 64 - 2 ^ 63

/-! ## Unit transforms (the lambdas of the `add*` functions) -/

/-- Constant `const int NS_TO_MS = 1000000;` in `addSoC`. -/
def addSoC.NS_TO_MS : Int := 1000000

/-- Constant `const int NS_TO_MS = 1000000;` in `addCPUclusters`. -/
def addCPUclusters.NS_TO_MS : Int := 1000000

/-- Constant `const int NS_TO_MS = 1000000;` in `addPowerDomains`. -/
def addPowerDomains.NS_TO_MS : Int := 1000000

/-- Constant `const int US_TO_MS = 1000;` in `addMobileRadio`. -/
def addMobileRadio.US_TO_MS : Int := 1000

/-- Constant `const int US_TO_MS = 1000;` in `addGNSS`. -/
def addGNSS.US_TO_MS : Int := 1000

/-- Lambda `[](uint64_t a) { return a / NS_TO_MS; }` in `addSoC`. -/
def addSoC.acpmNsToMs (a : Nat) : Nat := (a / intToU64 addSoC.NS_TO_MS) % U64_MOD

/-- Lambda `[](uint64_t a) { return a / NS_TO_MS; }` in `addCPUclusters`. -/
def addCPUclusters.acpmNsToMs (a : Nat) : Nat :=
  (a / intToU64 addCPUclusters.NS_TO_MS) % U64_MOD

/-- Lambda `[](uint64_t a) { return a / NS_TO_MS; }` in `addPowerDomains`. -/
def addPowerDomains.acpmNsToMs (a : Nat) : Nat :=
  (a / intToU64 addPowerDomains.NS_TO_MS) % U64_MOD

/-- Lambda `[](uint64_t a) { return a / US_TO_MS; }` in `addMobileRadio`. -/
def addMobileRadio.modemUsToMs (a : Nat) : Nat :=
  (a / intToU64 addMobileRadio.US_TO_MS) % U64_MOD

/-- Lambda `[](uint64_t a) { return a / US_TO_MS; }` in `addGNSS`. -/
def addGNSS.gnssUsToMs (a : Nat) : Nat := (a / intToU64 addGNSS.US_TO_MS) % U64_MOD

/-- Lambda `[](uint64_t a) { return a / 1000; }` in `addWifi`. -/
def addWifi.usecToMs (a : Nat) : Nat := (a / intToU64 1000) % U64_MOD

/-! ## State-residency configuration -/

/-- The designated-initialiser fields of
`GenericStateResidencyDataProvider::StateResidencyConfig` that the file sets.
A field the initialiser omits is value-initialised: `false`, the empty string,
an empty `std::function` (here `none`). -/
structure StateResidencyConfig where
  entryCountSupported : Bool := false
  entryCountPrefix : String := ""
  entryCountTransform : Option (Nat → Nat) := none
  totalTimeSupported : Bool := false
  totalTimePrefix : String := ""
  totalTimeTransform : Option (Nat → Nat) := none
  lastEntrySupported : Bool := false
  lastEntryPrefix : String := ""
  lastEntryTransform : Option (Nat → Nat) := none

/-- The arguments of one `cfgs.emplace_back(generateGenericStateResidencyConfigs(
stateConfig, stateHeaders), name, header)`. -/
structure PowerEntityConfig where
  stateConfig : StateResidencyConfig
  stateHeaders : List (String × String)
  name : String
  header : String

/-- Local `powerStateConfig` of `addMobileRadio`. -/
def addMobileRadio.powerStateConfig : StateResidencyConfig where
  entryCountSupported := true
  entryCountPrefix := "count:"
  totalTimeSupported := true
  totalTimePrefix := "duration_usec:"
  totalTimeTransform := some addMobileRadio.modemUsToMs
  lastEntrySupported := true
  lastEntryPrefix := "last_entry_timestamp_usec:"
  lastEntryTransform := some addMobileRadio.modemUsToMs

/-- Local `gnssStateConfig` of `addGNSS`. -/
def addGNSS.gnssStateConfig : StateResidencyConfig where
  entryCountSupported := true
  entryCountPrefix := "count:"
  totalTimeSupported := true
  totalTimePrefix := "duration_usec:"
  totalTimeTransform := some addGNSS.gnssUsToMs
  lastEntrySupported := true
  lastEntryPrefix := "last_entry_timestamp_usec:"
  lastEntryTransform := some addGNSS.gnssUsToMs

/-- Local `stateConfig` of `addWifi`. -/
def addWifi.stateConfig : StateResidencyConfig where
  entryCountSupported := true
  entryCountPrefix := "count:"
  totalTimeSupported := true
  totalTimePrefix := "duration_usec:"
  totalTimeTransform := some addWifi.usecToMs
  lastEntrySupported := true
  lastEntryPrefix := "last_entry_timestamp_usec:"
  lastEntryTransform := some addWifi.usecToMs

/-- Local `pcieStateConfig` of `addWifi`. -/
def addWifi.pcieStateConfig : StateResidencyConfig where
  entryCountSupported := true
  entryCountPrefix := "count:"
  totalTimeSupported := true
  totalTimePrefix := "duration_usec:"
  totalTimeTransform := some addWifi.usecToMs
  lastEntrySupported := false

/-- Local `lpmStateConfig` of `addSoC`. -/
def addSoC.lpmStateConfig : StateResidencyConfig where
  entryCountSupported := true
  entryCountPrefix := "success_count:"
  totalTimeSupported := true
  totalTimePrefix := "total_time_ns:"
  totalTimeTransform := some addSoC.acpmNsToMs
  lastEntrySupported := true
  lastEntryPrefix := "last_entry_time_ns:"
  lastEntryTransform := some addSoC.acpmNsToMs

/-- Local `downStateConfig` of `addSoC`. -/
def addSoC.downStateConfig : StateResidencyConfig where
  entryCountSupported := true
  entryCountPrefix := "down_count:"
  totalTimeSupported := true
  totalTimePrefix := "total_down_time_ns:"
  totalTimeTransform := some addSoC.acpmNsToMs
  lastEntrySupported := true
  lastEntryPrefix := "last_down_time_ns:"
  lastEntryTransform := some addSoC.acpmNsToMs

/-- Local `reqStateConfig` of `addSoC`. -/
def addSoC.reqStateConfig : StateResidencyConfig where
  entryCountSupported := true
  entryCountPrefix := "req_up_count:"
  totalTimeSupported := true
  totalTimePrefix := "total_req_up_time_ns:"
  totalTimeTransform := some addSoC.acpmNsToMs
  lastEntrySupported := true
  lastEntryPrefix := "last_req_up_time_ns:"
  lastEntryTransform := some addSoC.acpmNsToMs

/-- Local `powerStateHeaders` of `addSoC`. -/
def addSoC.powerStateHeaders : List (String × String) :=
  [("SICD", "SICD"), ("SLEEP", "SLEEP"), ("SLEEP_SLCMON", "SLEEP_SLCMON"),
   ("SLEEP_HSI1ON", "SLEEP_HSI1ON"), ("STOP", "STOP")]

/-- Local `mifReqStateHeaders` of `addSoC`. -/
def addSoC.mifReqStateHeaders : List (String × String) :=
  [("AOC", "AOC"), ("GSA", "GSA"), ("TPU", "TPU")]

/-- Local `slcReqStateHeaders` of `addSoC`. -/
def addSoC.slcReqStateHeaders : List (String × String) := [("AOC", "AOC")]

/-- Local `cfgs` of `addSoC`, in `emplace_back` order. -/
def addSoC.cfgs : List PowerEntityConfig :=
  [⟨addSoC.lpmStateConfig, addSoC.powerStateHeaders, "LPM", "LPM:"⟩,
   ⟨addSoC.downStateConfig, addSoC.powerStateHeaders, "MIF", "MIF:"⟩,
   ⟨addSoC.reqStateConfig, addSoC.mifReqStateHeaders, "MIF-REQ", "MIF_REQ:"⟩,
   ⟨addSoC.downStateConfig, addSoC.powerStateHeaders, "SLC", "SLC:"⟩,
   ⟨addSoC.reqStateConfig, addSoC.slcReqStateHeaders, "SLC-REQ", "SLC_REQ:"⟩]

/-- Local `cpuStateConfig` of `addCPUclusters`. -/
def addCPUclusters.cpuStateConfig : StateResidencyConfig where
  entryCountSupported := true
  entryCountPrefix := "down_count:"
  totalTimeSupported := true
  totalTimePrefix := "total_down_time_ns:"
  totalTimeTransform := some addCPUclusters.acpmNsToMs
  lastEntrySupported := true
  lastEntryPrefix := "last_down_time_ns:"
  lastEntryTransform := some addCPUclusters.acpmNsToMs

/-- Local `cpuStateHeaders` of `addCPUclusters`. -/
def addCPUclusters.cpuStateHeaders : List (String × String) := [("DOWN", "")]

/-- The names the range-`for` of `addCPUclusters` iterates over. -/
def addCPUclusters.names : List String :=
  ["CORE00", "CORE01", "CORE02", "CORE03", "CORE10", "CORE11",
   "CORE20", "CORE21", "CLUSTER0", "CLUSTER1", "CLUSTER2"]

/-- Local `cfgs` of `addCPUclusters`: one `emplace_back(..., name, name)` per name. -/
def addCPUclusters.cfgs : List PowerEntityConfig :=
  addCPUclusters.names.map fun name =>
    ⟨addCPUclusters.cpuStateConfig, addCPUclusters.cpuStateHeaders, name, name⟩

/-- Local `powerStateHeaders` of `addMobileRadio`. -/
def addMobileRadio.powerStateHeaders : List (String × String) := [("SLEEP", "SLEEP:")]

/-- Local `cfgs` of `addMobileRadio`. -/
def addMobileRadio.cfgs : List PowerEntityConfig :=
  [⟨addMobileRadio.powerStateConfig, addMobileRadio.powerStateHeaders, "MODEM", ""⟩]

/-- Local `gnssStateHeaders` of `addGNSS`. -/
def addGNSS.gnssStateHeaders : List (String × String) :=
  [("ON", "GPS_ON:"), ("OFF", "GPS_OFF:")]

/-- Local `cfgs` of `addGNSS`. -/
def addGNSS.cfgs : List PowerEntityConfig :=
  [⟨addGNSS.gnssStateConfig, addGNSS.gnssStateHeaders, "GPS", ""⟩]

/-- Local `pcieStateConfig` of `addPCIe` (no transform is given). -/
def addPCIe.pcieStateConfig : StateResidencyConfig where
  entryCountSupported := true
  entryCountPrefix := "Cumulative count:"
  totalTimeSupported := true
  totalTimePrefix := "Cumulative duration msec:"
  lastEntrySupported := true
  lastEntryPrefix := "Last entry timestamp msec:"

/-- Local `pcieStateHeaders` of `addPCIe`. -/
def addPCIe.pcieStateHeaders : List (String × String) :=
  [("UP", "Link up:"), ("DOWN", "Link down:")]

/-- Local `pcieModemCfgs` of `addPCIe`. -/
def addPCIe.pcieModemCfgs : List PowerEntityConfig :=
  [⟨addPCIe.pcieStateConfig, addPCIe.pcieStateHeaders, "PCIe-Modem", "Version: 1"⟩]

/-- Local `pcieWifiCfgs` of `addPCIe`. -/
def addPCIe.pcieWifiCfgs : List PowerEntityConfig :=
  [⟨addPCIe.pcieStateConfig, addPCIe.pcieStateHeaders, "PCIe-WiFi", "Version: 1"⟩]

/-- Local `stateHeaders` of `addWifi`. -/
def addWifi.stateHeaders : List (String × String) :=
  [("AWAKE", "AWAKE:"), ("ASLEEP", "ASLEEP:")]

/-- Local `pcieStateHeaders` of `addWifi`. -/
def addWifi.pcieStateHeaders : List (String × String) :=
  [("L0", "L0:"), ("L1", "L1:"), ("L1_1", "L1_1:"), ("L1_2", "L1_2:"), ("L2", "L2:")]

/-- Local `cfgs` of `addWifi`. -/
def addWifi.cfgs : List PowerEntityConfig :=
  [⟨addWifi.stateConfig, addWifi.stateHeaders, "WIFI", "WIFI"⟩,
   ⟨addWifi.pcieStateConfig, addWifi.pcieStateHeaders, "WIFI-PCIE", "WIFI-PCIE"⟩]

/-- Local `cpuStateConfig` of `addPowerDomains`. -/
def addPowerDomains.cpuStateConfig : StateResidencyConfig where
  entryCountSupported := true
  entryCountPrefix := "on_count:"
  totalTimeSupported := true
  totalTimePrefix := "total_on_time_ns:"
  totalTimeTransform := some addPowerDomains.acpmNsToMs
  lastEntrySupported := true
  lastEntryPrefix := "last_on_time_ns:"
  lastEntryTransform := some addPowerDomains.acpmNsToMs

/-- Local `cpuStateHeaders` of `addPowerDomains`. -/
def addPowerDomains.cpuStateHeaders : List (String × String) := [("ON", "")]

/-- The names the range-`for` of `addPowerDomains` iterates over. -/
def addPowerDomains.names : List String :=
  ["pd-aur", "pd-tpu", "pd-bo", "pd-tnr", "pd-gdc", "pd-mcsc", "pd-itp",
   "pd-ipp", "pd-g3aa", "pd-dns", "pd-pdp", "pd-csis",
   "pd-mfc", "pd-g2d", "pd-disp", "pd-dpu", "pd-hsi0",
   "pd-g3d", "pd-embedded_g3d", "pd-eh"]

/-- Local `cfgs` of `addPowerDomains`: one `emplace_back(..., name, name + ":")` per name. -/
def addPowerDomains.cfgs : List PowerEntityConfig :=
  addPowerDomains.names.map fun name =>
    ⟨addPowerDomains.cpuStateConfig, addPowerDomains.cpuStateHeaders, name, name ++ ":"⟩

/-- Local `nfcStateConfig` of `addNFC` (no transform is given). -/
def addNFC.nfcStateConfig : StateResidencyConfig where
  entryCountSupported := true
  entryCountPrefix := "Cumulative count:"
  totalTimeSupported := true
  totalTimePrefix := "Cumulative duration msec:"
  lastEntrySupported := true
  lastEntryPrefix := "Last entry timestamp msec:"

/-- Local `nfcStateHeaders` of `addNFC`. -/
def addNFC.nfcStateHeaders : List (String × String) :=
  [("IDLE", "Idle mode:"), ("ACTIVE", "Active mode:"),
   ("ACTIVE-RW", "Active Reader/Writer mode:")]

/-- Local `cfgs` of `addNFC`. -/
def addNFC.cfgs : List PowerEntityConfig :=
  [⟨addNFC.nfcStateConfig, addNFC.nfcStateHeaders, "NFC", "NFC subsystem"⟩]

/-! ## AoC and DVFS tables -/

/-- The sysfs directory `prefix` of `addAoC`. -/
def addAoC.pfx : String := "/sys/devices/platform/19000000.aoc/control/"

/-- Local `coreIds` of `addAoC`. -/
def addAoC.coreIds : List (String × String) :=
  [("AoC-A32", addAoC.pfx ++ "a32_"), ("AoC-FF1", addAoC.pfx ++ "ff1_"),
   ("AoC-HF1", addAoC.pfx ++ "hf1_"), ("AoC-HF0", addAoC.pfx ++ "hf0_")]

/-- Local `coreStates` of `addAoC`. -/
def addAoC.coreStates : List (String × String) :=
  [("DWN", "off"), ("RET", "retention"), ("WFI", "wfi")]

/-- Local `voltageIds` of `addAoC`. -/
def addAoC.voltageIds : List (String × String) :=
  [("AoC-Voltage", addAoC.pfx ++ "voltage_")]

/-- Local `voltageStates` of `addAoC`. -/
def addAoC.voltageStates : List (String × String) :=
  [("NOM", "nominal"), ("SUD", "super_underdrive"), ("UUD", "ultra_underdrive"),
   ("UD", "underdrive")]

/-- Local `monitorIds` of `addAoC`. -/
def addAoC.monitorIds : List (String × String) := [("AoC", addAoC.pfx ++ "monitor_")]

/-- Local `monitorStates` of `addAoC`. -/
def addAoC.monitorStates : List (String × String) := [("MON", "mode")]

/-- One `DvfsStateResidencyDataProvider::Config` as the file builds it: the
entity name and the list of (state name, value string) pairs. -/
structure DvfsConfig where
  powerEntityName : String
  states : List (String × String)

/-- Constant `const int NS_TO_MS = 1000000;` in `addDvfsStats`. -/
def addDvfsStats.NS_TO_MS : Int := 1000000

/-- Local `cfgs` of `addDvfsStats`, in `push_back` order. -/
def addDvfsStats.cfgs : List DvfsConfig :=
  [⟨"MIF",
    [("3172MHz", "3172000"), ("2730MHz", "2730000"), ("2535MHz", "2535000"),
     ("2288MHz", "2288000"), ("2028MHz", "2028000"), ("1716MHz", "1716000"),
     ("1539MHz", "1539000"), ("1352MHz", "1352000"), ("1014MHz", "1014000"),
     ("845MHz", "845000"), ("676MHz", "676000"), ("546MHz", "546000"),
     ("421MHz", "421000")]⟩,
   ⟨"CL0",
    [("1598MHz", "1598000"), ("1197MHz", "1197000"), ("1098MHz", "1098000"),
     ("930MHz", "930000"), ("738MHz", "738000"), ("574MHz", "574000"),
     ("300MHz", "300000"), ("0MHz", "0")]⟩,
   ⟨"CL1",
    [("910MHz", "910000"), ("799MHz", "799000"), ("696MHz", "696000"),
     ("533MHz", "533000"), ("400MHz", "400000"), ("0MHz", "0")]⟩,
   ⟨"CL2",
    [("984MHz", "984000"), ("851MHz", "851000"), ("500MHz", "500000"), ("0MHz", "0")]⟩,
   ⟨"TPU",
    [("1066MHz", "1066000"), ("845MHz", "845000"), ("625MHz", "625000"),
     ("227MHz", "227000"), ("RET_SLOW", "6"), ("S_OFF", "5"), ("S_SLOW", "4"),
     ("DS_FAST", "3"), ("DS_SLOW", "2"), ("DS_OFF", "1"), ("OFF", "0")]⟩]

/-! ## Energy meter data and the placeholder Wifi/BT consumer -/

/-- The `EnergyConsumerType` enumerators the file uses. -/
inductive EnergyConsumerType where
  | OTHER
  | BLUETOOTH
  | CPU_CLUSTER
  | GNSS
  | MOBILE_RADIO
  | WIFI
  deriving DecidableEq, Repr

/-- Modelled from the spec: the `Channel` record of the meter catalog (section 4.3,
`Channel` with id and name); its declaration is not part of this file. -/
structure Channel where
  id : Int
  name : String
  deriving DecidableEq, Repr

/-- Modelled from the spec: the `EnergyMeasurement` record (section 3: channel
id, timestamp in ms, cumulative energy in uWs); its declaration is not part of
this file. The source reads `timestampMs` and `energyUWs`. -/
structure EnergyMeasurement where
  id : Int
  timestampMs : Int
  energyUWs : Int
  deriving DecidableEq, Repr

/-- The two fields of `EnergyConsumerResult` that `getEnergyConsumed` sets. -/
structure EnergyConsumerResult where
  timestampMs : Int
  energyUWs : Int
  deriving DecidableEq, Repr

/-- Data members of `class PlaceholderEnergyConsumer`. The `mPowerStats`
pointer is represented by the meter answers passed to the methods. -/
structure PlaceholderEnergyConsumer where
  kType : EnergyConsumerType
  kName : String
  mChannelId : Int
  deriving DecidableEq, Repr

/-- The constructor loop `for (const auto &c : channels)` with its `break`:
the first channel named `VSYS_PWR_WLAN_BT` assigns `mChannelId`. -/
def PlaceholderEnergyConsumer.scanChannels (mChannelId : Int) : List Channel → Int
  | [] => mChannelId
  | c :: cs =>
    if c.name = "VSYS_PWR_WLAN_BT" then c.id
    else PlaceholderEnergyConsumer.scanChannels mChannelId cs

/-- Constructor `PlaceholderEnergyConsumer::PlaceholderEnergyConsumer`, given the vector
`channels` as `mPowerStats->getEnergyMeterInfo(&channels)` left it. -/
def PlaceholderEnergyConsumer.new (channels : List Channel) (type : EnergyConsumerType)
    (name : String) : PlaceholderEnergyConsumer :=
  { kType := type, kName := name,
    mChannelId := PlaceholderEnergyConsumer.scanChannels (-1) channels }

/-- Method `PlaceholderEnergyConsumer::getInfo`: the pair and the object afterwards. -/
def PlaceholderEnergyConsumer.getInfo (self : PlaceholderEnergyConsumer) :
    (EnergyConsumerType × String) × PlaceholderEnergyConsumer :=
  ((self.kType, self.kName), self)

/-- Method `PlaceholderEnergyConsumer::getConsumerName`: the name and the object
afterwards. -/
def PlaceholderEnergyConsumer.getConsumerName (self : PlaceholderEnergyConsumer) :
    String × PlaceholderEnergyConsumer :=
  (self.kName, self)

/-- The body of `for (const auto &m : measurements)`: one step on the pair
`(totalEnergyUWs, timestampMs)`; the `int64_t` addition wraps. -/
def PlaceholderEnergyConsumer.accumulate (acc : Int × Int) (m : EnergyMeasurement) :
    Int × Int :=
  (wrapI64 (acc.1 + m.energyUWs), m.timestampMs)

/-- Method `PlaceholderEnergyConsumer::getEnergyConsumed`. `readEnergyMeter ids` is
the answer of `mPowerStats->readEnergyMeter(ids, &measurements)`: `some` of the
measurements when the status `isOk()`, `none` otherwise. The final `>>1` on `int64_t`
is the arithmetic shift `Int.shiftRight`. Returns the optional result and the
object afterwards. -/
def PlaceholderEnergyConsumer.getEnergyConsumed (self : PlaceholderEnergyConsumer)
    (readEnergyMeter : List Int → Option (List EnergyMeasurement)) :
    Option EnergyConsumerResult × PlaceholderEnergyConsumer :=
  let totalEnergyUWs : Int := 0
  let timestampMs : Int := 0
  if self.mChannelId ≠ -1 then
    match readEnergyMeter [self.mChannelId] with
    | some measurements =>
      let acc := measurements.foldl PlaceholderEnergyConsumer.accumulate
        (totalEnergyUWs, timestampMs)
      (some { timestampMs := acc.2, energyUWs := Int.shiftRight acc.1 1 }, self)
    | none => (none, self)
  else
    (some { timestampMs := timestampMs, energyUWs := Int.shiftRight totalEnergyUWs 1 }, self)

/-- A call of one of the three public methods of the consumer; a call of
`getEnergyConsumed` comes with the meter answers it observes. -/
inductive ConsumerCall where
  | getInfo
  | getEnergyConsumed (readEnergyMeter : List Int → Option (List EnergyMeasurement))
  | getConsumerName

/-- The object after one method call. -/
def PlaceholderEnergyConsumer.afterCall (self : PlaceholderEnergyConsumer) :
    ConsumerCall → PlaceholderEnergyConsumer
  | .getInfo => self.getInfo.2
  | .getEnergyConsumed r => (self.getEnergyConsumed r).2
  | .getConsumerName => self.getConsumerName.2

/-- The object after a sequence of method calls, first call first. -/
def PlaceholderEnergyConsumer.afterCalls (self : PlaceholderEnergyConsumer)
    (calls : List ConsumerCall) : PlaceholderEnergyConsumer :=
  calls.foldl PlaceholderEnergyConsumer.afterCall self

/-! ## The registry and the registration functions -/

/-- The state-residency providers the file constructs, each with the
constructor arguments the file passes. -/
inductive StateResidencyDataProvider where
  | Aoc (ids : List (String × String)) (states : List (String × String))
  | Dvfs (path : String) (clockRate : Int) (cfgs : List DvfsConfig)
  | Generic (path : String) (cfgs : List PowerEntityConfig)
  | Devfreq (name : String) (path : String)
  | Ufs (path : String)
  | Pixel (entities : List (String × List (Nat × String)))

/-- The energy consumers the file registers, each with the arguments the file
passes to its factory or constructor. -/
inductive EnergyConsumer where
  | MeterConsumer (type : EnergyConsumerType) (name : String) (channelNames : List String)
  | MeterAndAttrConsumer (type : EnergyConsumerType) (name : String)
      (channelNames : List String) (attrPaths : List (String × String))
      (stateCoeffs : List (String × Int))
  | Placeholder (c : PlaceholderEnergyConsumer)

/-- The name a registered consumer was given. -/
def EnergyConsumer.name : EnergyConsumer → String
  | .MeterConsumer _ n _ => n
  | .MeterAndAttrConsumer _ n _ _ _ => n
  | .Placeholder c => c.kName

/-- The `IioEnergyMeterDataProvider` built by `setEnergyMeter`: its two
constructor arguments and the channel catalog it discovered on the devices. -/
structure IioEnergyMeterDataProvider where
  deviceNames : List String
  useSelector : Bool
  catalog : List Channel

/-- One call on the registry, as recorded in order of execution. A
`getEnergyMeterInfo` records whether a meter provider was set when it ran. -/
inductive RegistryEvent where
  | setEnergyMeterDataProvider
  | addStateResidencyDataProvider
  | addEnergyConsumer (name : String)
  | getEnergyMeterInfo (configured : Bool)
  deriving DecidableEq, Repr

/-- Modelled from the spec: the aggregator/registry of section 4.5 (class
`PowerStats`, implemented outside this file). It holds the single meter
provider, the registered providers and consumers in registration order, and a
record `log` of the calls made on it. -/
structure PowerStats where
  energyMeterDataProvider : Option IioEnergyMeterDataProvider := none
  stateResidencyDataProviders : List StateResidencyDataProvider := []
  energyConsumers : List EnergyConsumer := []
  log : List RegistryEvent := []

/-- Modelled from the spec: `setEnergyMeterDataProvider` of section 4.5, which
takes ownership of the single meter provider. -/
def PowerStats.setEnergyMeterDataProvider (p : PowerStats) (m : IioEnergyMeterDataProvider) :
    PowerStats :=
  { p with energyMeterDataProvider := some m,
           log := p.log ++ [.setEnergyMeterDataProvider] }

/-- Modelled from the spec: `addStateResidencyDataProvider` of section 4.5;
registrations are append-only. -/
def PowerStats.addStateResidencyDataProvider (p : PowerStats)
    (sdp : StateResidencyDataProvider) : PowerStats :=
  { p with stateResidencyDataProviders := p.stateResidencyDataProviders ++ [sdp],
           log := p.log ++ [.addStateResidencyDataProvider] }

/-- Modelled from the spec: `addEnergyConsumer` of section 4.5; registrations
are append-only. -/
def PowerStats.addEnergyConsumer (p : PowerStats) (c : EnergyConsumer) : PowerStats :=
  { p with energyConsumers := p.energyConsumers ++ [c],
           log := p.log ++ [.addEnergyConsumer c.name] }

/-- Modelled from the spec: `getEnergyMeterInfo` of section 4.5, which
delegates to the registered meter provider and fails with `NotConfigured`
(here `none`) before one is set. -/
def PowerStats.getEnergyMeterInfo (p : PowerStats) : Option (List Channel) × PowerStats :=
  match p.energyMeterDataProvider with
  | some m => (some m.catalog, { p with log := p.log ++ [.getEnergyMeterInfo true] })
  | none => (none, { p with log := p.log ++ [.getEnergyMeterInfo false] })

/-- The expression `std::make_unique<PlaceholderEnergyConsumer>(p, type, name)`:
the constructor queries the catalog (ignoring the status; on failure the local
vector stays empty) and scans it. -/
def makePlaceholderEnergyConsumer (p : PowerStats) (type : EnergyConsumerType)
    (name : String) : PlaceholderEnergyConsumer × PowerStats :=
  let r := p.getEnergyMeterInfo
  (PlaceholderEnergyConsumer.new (r.1.getD []) type name, r.2)

/-- Function `addPlaceholderEnergyConsumers`. -/
def addPlaceholderEnergyConsumers (p : PowerStats) : PowerStats :=
  let w := makePlaceholderEnergyConsumer p .WIFI "Wifi"
  let p := w.2.addEnergyConsumer (.Placeholder w.1)
  let b := makePlaceholderEnergyConsumer p .BLUETOOTH "BT"
  b.2.addEnergyConsumer (.Placeholder b.1)

/-- Function `addAoC`. -/
def addAoC (p : PowerStats) : PowerStats :=
  let p := p.addStateResidencyDataProvider (.Aoc addAoC.coreIds addAoC.coreStates)
  let p := p.addStateResidencyDataProvider (.Aoc addAoC.voltageIds addAoC.voltageStates)
  p.addStateResidencyDataProvider (.Aoc addAoC.monitorIds addAoC.monitorStates)

/-- Function `addDvfsStats`. -/
def addDvfsStats (p : PowerStats) : PowerStats :=
  p.addStateResidencyDataProvider
    (.Dvfs "/sys/devices/platform/acpm_stats/fvp_stats" addDvfsStats.NS_TO_MS
      addDvfsStats.cfgs)

/-- Function `addSoC`. -/
def addSoC (p : PowerStats) : PowerStats :=
  p.addStateResidencyDataProvider
    (.Generic "/sys/devices/platform/acpm_stats/soc_stats" addSoC.cfgs)

/-- Function `setEnergyMeter`; `catalog` is what the provider discovers on the two
devices when it is constructed. -/
def setEnergyMeter (catalog : List Channel) (p : PowerStats) : PowerStats :=
  p.setEnergyMeterDataProvider
    { deviceNames := ["s2mpg12-odpm", "s2mpg13-odpm"], useSelector := true,
      catalog := catalog }

/-- Function `addCPUclusters`. -/
def addCPUclusters (p : PowerStats) : PowerStats :=
  let p := p.addStateResidencyDataProvider
    (.Generic "/sys/devices/platform/acpm_stats/core_stats" addCPUclusters.cfgs)
  let p := p.addEnergyConsumer (.MeterConsumer .CPU_CLUSTER "CPUCL0" ["S4M_VDD_CPUCL0"])
  let p := p.addEnergyConsumer (.MeterConsumer .CPU_CLUSTER "CPUCL1" ["S3M_VDD_CPUCL1"])
  p.addEnergyConsumer (.MeterConsumer .CPU_CLUSTER "CPUCL2" ["S2M_VDD_CPUCL2"])

/-- Local `stateCoeffs` of `addGPU`. -/
def addGPU.stateCoeffs : List (String × Int) :=
  [("151000", 642), ("202000", 890), ("251000", 1102), ("302000", 1308),
   ("351000", 1522), ("400000", 1772), ("471000", 2105), ("510000", 2292),
   ("572000", 2528), ("701000", 3127), ("762000", 3452), ("848000", 4044)]

/-- Function `addGPU`. -/
def addGPU (p : PowerStats) : PowerStats :=
  let p := p.addEnergyConsumer
    (.MeterAndAttrConsumer .OTHER "GPU" ["S8S_VDD_G3D_L2"]
      [("UID_TIME_IN_STATE", "/sys/devices/platform/28000000.mali/uid_time_in_state")]
      addGPU.stateCoeffs)
  p.addStateResidencyDataProvider (.Devfreq "GPU" "/sys/devices/platform/28000000.mali")

/-- Function `addMobileRadio`. -/
def addMobileRadio (p : PowerStats) : PowerStats :=
  let p := p.addStateResidencyDataProvider
    (.Generic "/sys/devices/platform/cpif/modem/power_stats" addMobileRadio.cfgs)
  p.addEnergyConsumer
    (.MeterConsumer EnergyConsumerType.MOBILE_RADIO "MODEM" ["VSYS_PWR_MODEM", "VSYS_PWR_RFFE"])

/-- Function `addGNSS`. -/
def addGNSS (p : PowerStats) : PowerStats :=
  let p := p.addStateResidencyDataProvider (.Generic "/dev/bbd_pwrstat" addGNSS.cfgs)
  p.addEnergyConsumer (.MeterConsumer .GNSS "GPS" ["L9S_GNSS_CORE"])

/-- Function `addPCIe`. -/
def addPCIe (p : PowerStats) : PowerStats :=
  let p := p.addStateResidencyDataProvider
    (.Generic "/sys/devices/platform/11920000.pcie/power_stats" addPCIe.pcieModemCfgs)
  p.addStateResidencyDataProvider
    (.Generic "/sys/devices/platform/14520000.pcie/power_stats" addPCIe.pcieWifiCfgs)

/-- Function `addWifi`. -/
def addWifi (p : PowerStats) : PowerStats :=
  p.addStateResidencyDataProvider (.Generic "/sys/wifi/power_stats" addWifi.cfgs)

/-- Function `addUfs`. -/
def addUfs (p : PowerStats) : PowerStats :=
  p.addStateResidencyDataProvider
    (.Ufs "/sys/bus/platform/devices/14700000.ufs/ufs_stats/")

/-- Function `addPowerDomains`. -/
def addPowerDomains (p : PowerStats) : PowerStats :=
  p.addStateResidencyDataProvider
    (.Generic "/sys/devices/platform/acpm_stats/pd_stats" addPowerDomains.cfgs)

/-- Function `addDevfreq`. -/
def addDevfreq (p : PowerStats) : PowerStats :=
  p.addStateResidencyDataProvider
    (.Devfreq "INT"
      "/sys/devices/platform/17000020.devfreq_int/devfreq/17000020.devfreq_int")

/-- Local `stateCoeffs` of `addTPU`. -/
def addTPU.stateCoeffs : List (String × Int) :=
  [("227000", 10), ("625000", 20), ("845000", 30), ("1066000", 40)]

/-- Function `addTPU`. -/
def addTPU (p : PowerStats) : PowerStats :=
  p.addEnergyConsumer
    (.MeterAndAttrConsumer .OTHER "TPU" ["S10M_VDD_TPU"]
      [("UID_TIME_IN_STATE", "/sys/class/edgetpu/edgetpu-soc/device/tpu_usage")]
      addTPU.stateCoeffs)

/-- The entity `pixelSdp->addEntity("Bluetooth", ...)` of
`addPixelStateResidencyDataProvider`. -/
def addPixelStateResidencyDataProvider.entities : List (String × List (Nat × String)) :=
  [("Bluetooth", [(0, "Idle"), (1, "Active"), (2, "Tx"), (3, "Rx")])]

/-- Function `addPixelStateResidencyDataProvider`. -/
def addPixelStateResidencyDataProvider (p : PowerStats) : PowerStats :=
  p.addStateResidencyDataProvider (.Pixel addPixelStateResidencyDataProvider.entities)

/-- Function `addGs201CommonDataProviders`, statement by statement. -/
def addGs201CommonDataProviders (catalog : List Channel) (p : PowerStats) : PowerStats :=
  let p := setEnergyMeter catalog p
  let p := addPixelStateResidencyDataProvider p
  let p := addAoC p
  let p := addDvfsStats p
  let p := addSoC p
  let p := addCPUclusters p
  let p := addGPU p
  let p := addMobileRadio p
  let p := addGNSS p
  let p := addPCIe p
  let p := addWifi p
  let p := addUfs p
  let p := addPowerDomains p
  let p := addDevfreq p
  let p := addTPU p
  addPlaceholderEnergyConsumers p

/-- Function `addNFC`. -/
def addNFC (p : PowerStats) (path : String) : PowerStats :=
  p.addStateResidencyDataProvider (.Generic path addNFC.cfgs)

/-- The entity names a provider is configured with: the first components of the
id pairs (AoC), the `Config` names (DVFS), the `PowerEntityConfig` names
(generic), the constructor name (devfreq) and the `addEntity` names (Pixel).
The UFS provider receives only a path, no entity name. -/
def StateResidencyDataProvider.entityNames : StateResidencyDataProvider → List String
  | .Aoc ids _ => ids.map Prod.fst
  | .Dvfs _ _ cfgs => cfgs.map DvfsConfig.powerEntityName
  | .Generic _ cfgs => cfgs.map PowerEntityConfig.name
  | .Devfreq name _ => [name]
  | .Ufs _ => []
  | .Pixel entities => entities.map Prod.fst

/-- Per configured entity of a provider, the list of its state names: the first
components of the state pairs (AoC states are shared by the provider's ids, so
one list), of each DVFS `Config`, of each generic state-header list, and the
names of each Pixel entity's states. -/
def StateResidencyDataProvider.stateNames : StateResidencyDataProvider → List (List String)
  | .Aoc _ states => [states.map Prod.fst]
  | .Dvfs _ _ cfgs => cfgs.map fun c => c.states.map Prod.fst
  | .Generic _ cfgs => cfgs.map fun c => c.stateHeaders.map Prod.fst
  | .Devfreq _ _ => []
  | .Ufs _ => []
  | .Pixel entities => entities.map fun e => e.2.map Prod.snd

/-- Per DVFS entity of a provider, the list of its frequency/value strings. -/
def StateResidencyDataProvider.dvfsValues : StateResidencyDataProvider → List (List String)
  | .Dvfs _ _ cfgs => cfgs.map fun c => c.states.map Prod.snd
  | _ => []

/-- All entity names configured by a registry's providers, in registration
order. -/
def PowerStats.entityNames (p : PowerStats) : List String :=
  p.stateResidencyDataProviders.flatMap StateResidencyDataProvider.entityNames

/-- The registry after `addGs201CommonDataProviders` on a fresh `PowerStats`. -/
def registered (catalog : List Channel) : PowerStats :=
  addGs201CommonDataProviders catalog {}

/-! ## Applying a state configuration to source text -/

/-- Modelled from the spec: the integer reader of the Text Metric Parser
(section 4.1), which is implemented outside this file. Reads decimal digits up
to the next whitespace or the end of the line; any other character makes the
text malformed (`none`), as does the absence of a digit. -/
def readDigits : Option Nat → List Char → Option Nat
  | acc, [] => acc
  | acc, c :: cs =>
    if c.isDigit then readDigits (some (acc.getD 0 * 10 + (c.toNat - 48))) cs
    else if c.isWhitespace then acc
    else none

/-- Modelled from the spec: whitespace between a prefix and its integer is
skipped by the Text Metric Parser (section 4.1). -/
def skipWhitespace : List Char → List Char
  | [] => []
  | c :: cs => if c.isWhitespace then skipWhitespace cs else c :: cs

/-- Modelled from the spec: one field of the Text Metric Parser (section 4.1),
implemented outside this file. The configured prefix is located as a line-start
token, the whitespace-delimited integer after it is parsed, and the unit
transform is applied once if present. The field is absent if it is unsupported,
if no line starts with the prefix or if the number is malformed. -/
def parseField (supported : Bool) (pfx : String) (transform : Option (Nat → Nat))
    (lines : List String) : Option Nat :=
  if supported then
    match lines.find? fun l => pfx.data.isPrefixOf l.data with
    | none => none
    | some l =>
      match readDigits none (skipWhitespace (l.data.drop pfx.data.length)) with
      | none => none
      | some v =>
        match transform with
        | some f => some (f v)
        | none => some v
  else none

/-- Modelled from the spec: the numeric part of one state's record in a
`StateResidencyResult` (section 3): entry count, total time in ms, last-entry
time in ms, each possibly absent. -/
structure StateResidency where
  entryCount : Option Nat
  totalTimeMs : Option Nat
  lastEntryMs : Option Nat
  deriving DecidableEq, Repr

/-- Modelled from the spec: the Text Metric Parser (section 4.1) run with one
state configuration over the lines of a source. -/
def parseState (cfg : StateResidencyConfig) (lines : List String) : StateResidency :=
  { entryCount :=
      parseField cfg.entryCountSupported cfg.entryCountPrefix cfg.entryCountTransform lines,
    totalTimeMs :=
      parseField cfg.totalTimeSupported cfg.totalTimePrefix cfg.totalTimeTransform lines,
    lastEntryMs :=
      parseField cfg.lastEntrySupported cfg.lastEntryPrefix cfg.lastEntryTransform lines }

/-- The state configurations a provider hands to
`generateGenericStateResidencyConfigs`, one per configured entity. -/
def StateResidencyDataProvider.stateConfigs :
    StateResidencyDataProvider → List StateResidencyConfig
  | .Generic _ cfgs => cfgs.map PowerEntityConfig.stateConfig
  | _ => []

/-- All state configurations of a registry's providers. -/
def PowerStats.stateConfigs (p : PowerStats) : List StateResidencyConfig :=
  p.stateResidencyDataProviders.flatMap StateResidencyDataProvider.stateConfigs

/-- The consumer name recorded by an `addEnergyConsumer` event. -/
def RegistryEvent.consumerName? : RegistryEvent → Option String
  | .addEnergyConsumer n => some n
  | _ => none

/-- The events `addGs201CommonDataProviders` records after its first call, in
order of execution. -/
def addGs201CommonDataProviders.laterEvents : List RegistryEvent :=
  [.addStateResidencyDataProvider, .addStateResidencyDataProvider,
   .addStateResidencyDataProvider, .addStateResidencyDataProvider,
   .addStateResidencyDataProvider, .addStateResidencyDataProvider,
   .addStateResidencyDataProvider,
   .addEnergyConsumer "CPUCL0", .addEnergyConsumer "CPUCL1", .addEnergyConsumer "CPUCL2",
   .addEnergyConsumer "GPU", .addStateResidencyDataProvider,
   .addStateResidencyDataProvider, .addEnergyConsumer "MODEM",
   .addStateResidencyDataProvider, .addEnergyConsumer "GPS",
   .addStateResidencyDataProvider, .addStateResidencyDataProvider,
   .addStateResidencyDataProvider, .addStateResidencyDataProvider,
   .addStateResidencyDataProvider, .addStateResidencyDataProvider,
   .addEnergyConsumer "TPU",
   .getEnergyMeterInfo true, .addEnergyConsumer "Wifi",
   .getEnergyMeterInfo true, .addEnergyConsumer "BT"]

/-- Method `PlaceholderEnergyConsumer::getEnergyConsumed` with its meter
traffic recorded: the same body, returning in addition the channel-id lists it
passed to `mPowerStats->readEnergyMeter`, in call order. -/
def PlaceholderEnergyConsumer.getEnergyConsumedTraced (self : PlaceholderEnergyConsumer)
    (readEnergyMeter : List Int → Option (List EnergyMeasurement)) :
    (Option EnergyConsumerResult × PlaceholderEnergyConsumer) × List (List Int) :=
  let totalEnergyUWs : Int := 0
  let timestampMs : Int := 0
  if self.mChannelId ≠ -1 then
    match readEnergyMeter [self.mChannelId] with
    | some measurements =>
      let acc := measurements.foldl PlaceholderEnergyConsumer.accumulate
        (totalEnergyUWs, timestampMs)
      ((some { timestampMs := acc.2, energyUWs := Int.shiftRight acc.1 1 }, self),
        [[self.mChannelId]])
    | none => ((none, self), [[self.mChannelId]])
  else
    ((some { timestampMs := timestampMs, energyUWs := Int.shiftRight totalEnergyUWs 1 }, self),
      [])

/-- The value strings of the states of the DVFS entity `entity` in
`addDvfsStats` whose state name ends in `MHz`, in table order. -/
def addDvfsStats.mhzValues (entity : String) : List String :=
  (addDvfsStats.cfgs.filter fun c => c.powerEntityName = entity).flatMap fun c =>
    (c.states.filter fun st => "MHz".data.isSuffixOf st.1.data).map Prod.snd

/-- The keys of the `std::map` `stateCoeffs` of `addTPU`. -/
def addTPU.stateCoeffKeys : List String := addTPU.stateCoeffs.map Prod.fst

/-! ## Helper lemmas -/

theorem intToU64_of_small (n : Nat) (h : n < 2 ^ 64) : intToU64 (n : Int) = n := by
  unfold intToU64 U64_MOD
  have h1 : ((n : Int) % ((2 ^ 64 : Nat) : Int)) = (n : Int) := by
    apply Int.emod_eq_of_lt <;> omega
  rw [h1]; simp

theorem u64_div_const (a k : Nat) (ha : a < 2 ^ 64) (hk : k < 2 ^ 64) :
    (a / intToU64 (k : Int)) % U64_MOD = a / k := by
  rw [intToU64_of_small k hk]
  apply Nat.mod_eq_of_lt
  unfold U64_MOD
  exact lt_of_le_of_lt (Nat.div_le_self a k) ha

theorem wrapI64_add_wrapI64 (a b : Int) : wrapI64 (wrapI64 a + b) = wrapI64 (a + b) := by
  unfold wrapI64
  omega

theorem wrapI64_idem (a : Int) : wrapI64 (wrapI64 a) = wrapI64 a := by
  unfold wrapI64
  omega

theorem shiftRight_one (x : Int) : Int.shiftRight x 1 = x / 2 := by
  have h := Int.shiftRight_eq_div_pow x 1
  simpa using h

theorem wrapI64_zero : wrapI64 0 = 0 := by decide

theorem foldl_accumulate_fst (ms : List EnergyMeasurement) (t ts : Int)
    (ht : wrapI64 t = t) :
    (ms.foldl PlaceholderEnergyConsumer.accumulate (t, ts)).1
      = wrapI64 (t + (ms.map EnergyMeasurement.energyUWs).sum) := by
  induction ms generalizing t ts with
  | nil => simp [ht]
  | cons m ms ih =>
    simp only [List.foldl_cons, List.map_cons, List.sum_cons,
      PlaceholderEnergyConsumer.accumulate]
    rw [ih _ _ (wrapI64_idem _), wrapI64_add_wrapI64, Int.add_assoc]

theorem foldl_accumulate_snd (ms : List EnergyMeasurement) (t ts : Int) :
    (ms.foldl PlaceholderEnergyConsumer.accumulate (t, ts)).2
      = (ms.getLast?.map EnergyMeasurement.timestampMs).getD ts := by
  induction ms using List.reverseRecOn with
  | nil => simp
  | append_singleton l a _ =>
    simp [List.foldl_append, PlaceholderEnergyConsumer.accumulate]

theorem getEnergyConsumed_of_read (c : PlaceholderEnergyConsumer)
    (readEnergyMeter : List Int → Option (List EnergyMeasurement))
    (ms : List EnergyMeasurement) (hch : c.mChannelId ≠ -1)
    (hread : readEnergyMeter [c.mChannelId] = some ms) :
    (c.getEnergyConsumed readEnergyMeter).1
      = some { timestampMs := (ms.getLast?.map EnergyMeasurement.timestampMs).getD 0,
               energyUWs := Int.shiftRight (wrapI64 (ms.map EnergyMeasurement.energyUWs).sum) 1 } := by
  unfold PlaceholderEnergyConsumer.getEnergyConsumed
  simp only [hch, hread, ne_eq, not_false_eq_true, if_true]
  rw [foldl_accumulate_fst ms 0 0 wrapI64_zero, foldl_accumulate_snd, Int.zero_add]

theorem providers_list (catalog : List Channel) :
    (registered catalog).stateResidencyDataProviders
      = [.Pixel addPixelStateResidencyDataProvider.entities,
         .Aoc addAoC.coreIds addAoC.coreStates,
         .Aoc addAoC.voltageIds addAoC.voltageStates,
         .Aoc addAoC.monitorIds addAoC.monitorStates,
         .Dvfs "/sys/devices/platform/acpm_stats/fvp_stats" addDvfsStats.NS_TO_MS
           addDvfsStats.cfgs,
         .Generic "/sys/devices/platform/acpm_stats/soc_stats" addSoC.cfgs,
         .Generic "/sys/devices/platform/acpm_stats/core_stats" addCPUclusters.cfgs,
         .Devfreq "GPU" "/sys/devices/platform/28000000.mali",
         .Generic "/sys/devices/platform/cpif/modem/power_stats" addMobileRadio.cfgs,
         .Generic "/dev/bbd_pwrstat" addGNSS.cfgs,
         .Generic "/sys/devices/platform/11920000.pcie/power_stats" addPCIe.pcieModemCfgs,
         .Generic "/sys/devices/platform/14520000.pcie/power_stats" addPCIe.pcieWifiCfgs,
         .Generic "/sys/wifi/power_stats" addWifi.cfgs,
         .Ufs "/sys/bus/platform/devices/14700000.ufs/ufs_stats/",
         .Generic "/sys/devices/platform/acpm_stats/pd_stats" addPowerDomains.cfgs,
         .Devfreq "INT"
           "/sys/devices/platform/17000020.devfreq_int/devfreq/17000020.devfreq_int"] :=
  rfl

theorem mem_stateConfigs (catalog : List Channel) (cfg : StateResidencyConfig)
    (h : cfg ∈ (registered catalog).stateConfigs) :
    cfg ∈ [addSoC.lpmStateConfig, addSoC.downStateConfig, addSoC.reqStateConfig,
      addCPUclusters.cpuStateConfig, addMobileRadio.powerStateConfig,
      addGNSS.gnssStateConfig, addPCIe.pcieStateConfig, addWifi.stateConfig,
      addWifi.pcieStateConfig, addPowerDomains.cpuStateConfig] := by
  unfold PowerStats.stateConfigs at h
  rw [providers_list] at h
  simp only [List.flatMap_cons, List.flatMap_nil, StateResidencyDataProvider.stateConfigs,
    List.mem_append, List.mem_map, addSoC.cfgs, addCPUclusters.cfgs,
    addMobileRadio.cfgs, addGNSS.cfgs, addPCIe.pcieModemCfgs, addPCIe.pcieWifiCfgs,
    addWifi.cfgs, addPowerDomains.cfgs, List.mem_cons, List.mem_singleton,
    List.not_mem_nil, or_false, false_or, exists_eq_or_imp, exists_eq_left,
    exists_exists_and_eq_and, List.append_nil, List.nil_append] at h
  simp only [List.mem_cons, List.mem_singleton, List.not_mem_nil, or_false]
  rcases h with (h | h | h | h | h) | ⟨_, _, h⟩ | h | h | h | h | (h | h) | ⟨_, _, h⟩ <;>
    subst h <;> simp

theorem mem_stateConfigs_of_generic (catalog : List Channel) (path : String)
    (cfgs : List PowerEntityConfig) (c : PowerEntityConfig)
    (hp : StateResidencyDataProvider.Generic path cfgs
      ∈ (registered catalog).stateResidencyDataProviders) (hc : c ∈ cfgs) :
    c.stateConfig ∈ (registered catalog).stateConfigs := by
  unfold PowerStats.stateConfigs
  exact List.mem_flatMap.mpr ⟨_, hp, List.mem_map.mpr ⟨c, hc, rfl⟩⟩

theorem modem_config_registered (catalog : List Channel) :
    addMobileRadio.powerStateConfig ∈ (registered catalog).stateConfigs :=
  mem_stateConfigs_of_generic catalog "/sys/devices/platform/cpif/modem/power_stats"
    addMobileRadio.cfgs
    ⟨addMobileRadio.powerStateConfig, addMobileRadio.powerStateHeaders, "MODEM", ""⟩
    (by rw [providers_list]; simp) (by simp [addMobileRadio.cfgs])

theorem gnss_config_registered (catalog : List Channel) :
    addGNSS.gnssStateConfig ∈ (registered catalog).stateConfigs :=
  mem_stateConfigs_of_generic catalog "/dev/bbd_pwrstat"
    addGNSS.cfgs
    ⟨addGNSS.gnssStateConfig, addGNSS.gnssStateHeaders, "GPS", ""⟩
    (by rw [providers_list]; simp) (by simp [addGNSS.cfgs])

theorem wifi_config_registered (catalog : List Channel) :
    addWifi.stateConfig ∈ (registered catalog).stateConfigs :=
  mem_stateConfigs_of_generic catalog "/sys/wifi/power_stats"
    addWifi.cfgs
    ⟨addWifi.stateConfig, addWifi.stateHeaders, "WIFI", "WIFI"⟩
    (by rw [providers_list]; simp) (by simp [addWifi.cfgs])

theorem log_addGs201CommonDataProviders (catalog : List Channel) (p : PowerStats) :
    (addGs201CommonDataProviders catalog p).log
      = p.log ++ RegistryEvent.setEnergyMeterDataProvider
          :: addGs201CommonDataProviders.laterEvents := by
  simp [addGs201CommonDataProviders, setEnergyMeter, addPixelStateResidencyDataProvider,
    addAoC, addDvfsStats, addSoC, addCPUclusters, addGPU, addMobileRadio, addGNSS, addPCIe,
    addWifi, addUfs, addPowerDomains, addDevfreq, addTPU, addPlaceholderEnergyConsumers,
    makePlaceholderEnergyConsumer, PowerStats.setEnergyMeterDataProvider,
    PowerStats.addStateResidencyDataProvider, PowerStats.addEnergyConsumer,
    PowerStats.getEnergyMeterInfo, EnergyConsumer.name, PlaceholderEnergyConsumer.new,
    addGs201CommonDataProviders.laterEvents]

theorem providers_addGs201CommonDataProviders (catalog : List Channel) (p : PowerStats) :
    (addGs201CommonDataProviders catalog p).stateResidencyDataProviders
      = p.stateResidencyDataProviders ++ (registered catalog).stateResidencyDataProviders := by
  simp [registered, addGs201CommonDataProviders, setEnergyMeter,
    addPixelStateResidencyDataProvider,
    addAoC, addDvfsStats, addSoC, addCPUclusters, addGPU, addMobileRadio, addGNSS, addPCIe,
    addWifi, addUfs, addPowerDomains, addDevfreq, addTPU, addPlaceholderEnergyConsumers,
    makePlaceholderEnergyConsumer, PowerStats.setEnergyMeterDataProvider,
    PowerStats.addStateResidencyDataProvider, PowerStats.addEnergyConsumer,
    PowerStats.getEnergyMeterInfo]

theorem consumers_addGs201CommonDataProviders (catalog : List Channel) (p : PowerStats) :
    (addGs201CommonDataProviders catalog p).energyConsumers
      = p.energyConsumers ++ (registered catalog).energyConsumers := by
  simp [registered, addGs201CommonDataProviders, setEnergyMeter,
    addPixelStateResidencyDataProvider,
    addAoC, addDvfsStats, addSoC, addCPUclusters, addGPU, addMobileRadio, addGNSS, addPCIe,
    addWifi, addUfs, addPowerDomains, addDevfreq, addTPU, addPlaceholderEnergyConsumers,
    makePlaceholderEnergyConsumer, PowerStats.setEnergyMeterDataProvider,
    PowerStats.addStateResidencyDataProvider, PowerStats.addEnergyConsumer,
    PowerStats.getEnergyMeterInfo]

theorem meter_addGs201CommonDataProviders (catalog : List Channel) (p : PowerStats) :
    (addGs201CommonDataProviders catalog p).energyMeterDataProvider
      = some { deviceNames := ["s2mpg12-odpm", "s2mpg13-odpm"], useSelector := true,
               catalog := catalog } := by
  simp [addGs201CommonDataProviders, setEnergyMeter,
    addPixelStateResidencyDataProvider,
    addAoC, addDvfsStats, addSoC, addCPUclusters, addGPU, addMobileRadio, addGNSS, addPCIe,
    addWifi, addUfs, addPowerDomains, addDevfreq, addTPU, addPlaceholderEnergyConsumers,
    makePlaceholderEnergyConsumer, PowerStats.setEnergyMeterDataProvider,
    PowerStats.addStateResidencyDataProvider, PowerStats.addEnergyConsumer,
    PowerStats.getEnergyMeterInfo]

theorem afterCall_eq (c : PlaceholderEnergyConsumer) (call : ConsumerCall) :
    c.afterCall call = c := by
  cases call with
  | getInfo => rfl
  | getConsumerName => rfl
  | getEnergyConsumed r =>
    show (c.getEnergyConsumed r).2 = c
    unfold PlaceholderEnergyConsumer.getEnergyConsumed
    by_cases h : c.mChannelId = -1
    · simp [h]
    · cases hr : r [c.mChannelId] <;> simp [h, hr]

theorem afterCalls_eq (c : PlaceholderEnergyConsumer) (calls : List ConsumerCall) :
    c.afterCalls calls = c := by
  unfold PlaceholderEnergyConsumer.afterCalls
  induction calls with
  | nil => rfl
  | cons call calls ih => rw [List.foldl_cons, afterCall_eq, ih]

theorem getEnergyConsumedTraced_snd (c : PlaceholderEnergyConsumer)
    (readEnergyMeter : List Int → Option (List EnergyMeasurement)) :
    (c.getEnergyConsumedTraced readEnergyMeter).2
      = if c.mChannelId = -1 then [] else [[c.mChannelId]] := by
  unfold PlaceholderEnergyConsumer.getEnergyConsumedTraced
  by_cases h : c.mChannelId = -1
  · simp [h]
  · cases hr : readEnergyMeter [c.mChannelId] <;> simp [h, hr]

theorem scanChannels_of_no_match (d : Int) (channels : List Channel)
    (hnone : ∀ c ∈ channels, c.name ≠ "VSYS_PWR_WLAN_BT") :
    PlaceholderEnergyConsumer.scanChannels d channels = d := by
  induction channels with
  | nil => rfl
  | cons c cs ih =>
    unfold PlaceholderEnergyConsumer.scanChannels
    rw [if_neg (hnone c (List.mem_cons_self c cs))]
    exact ih fun x hx => hnone x (List.mem_cons_of_mem c hx)

theorem placeholders_registered (catalog : List Channel) :
    (registered catalog).energyConsumers
      = (registered catalog).energyConsumers.take 7
        ++ [EnergyConsumer.Placeholder (PlaceholderEnergyConsumer.new catalog .WIFI "Wifi"),
            EnergyConsumer.Placeholder
              (PlaceholderEnergyConsumer.new catalog .BLUETOOTH "BT")] := by
  simp [registered, addGs201CommonDataProviders, setEnergyMeter,
    addPixelStateResidencyDataProvider,
    addAoC, addDvfsStats, addSoC, addCPUclusters, addGPU, addMobileRadio, addGNSS, addPCIe,
    addWifi, addUfs, addPowerDomains, addDevfreq, addTPU, addPlaceholderEnergyConsumers,
    makePlaceholderEnergyConsumer, PowerStats.setEnergyMeterDataProvider,
    PowerStats.addStateResidencyDataProvider, PowerStats.addEnergyConsumer,
    PowerStats.getEnergyMeterInfo]

/-- C1: each of the three `acpmNsToMs` transforms (in `addSoC`,
`addCPUclusters`, `addPowerDomains`) maps every unsigned 64-bit input `a` to the
truncating quotient `a / 1000000`, never exceeds its input, and sends 0 to 0,
999999 to 0 and 1000000 to 1. -/
theorem C1_acpmNsToMs_truncating_quotient (a : Nat) (ha : a < 2 ^ 64) :
    (addSoC.acpmNsToMs a = a / 1000000
      ∧ addCPUclusters.acpmNsToMs a = a / 1000000
      ∧ addPowerDomains.acpmNsToMs a = a / 1000000)
    ∧ (addSoC.acpmNsToMs a ≤ a ∧ addCPUclusters.acpmNsToMs a ≤ a
      ∧ addPowerDomains.acpmNsToMs a ≤ a)
    ∧ (addSoC.acpmNsToMs 0 = 0 ∧ addSoC.acpmNsToMs 999999 = 0
      ∧ addSoC.acpmNsToMs 1000000 = 1)
    ∧ (addCPUclusters.acpmNsToMs 0 = 0 ∧ addCPUclusters.acpmNsToMs 999999 = 0
      ∧ addCPUclusters.acpmNsToMs 1000000 = 1)
    ∧ (addPowerDomains.acpmNsToMs 0 = 0 ∧ addPowerDomains.acpmNsToMs 999999 = 0
      ∧ addPowerDomains.acpmNsToMs 1000000 = 1) := by
  have h1 : addSoC.acpmNsToMs a = a / 1000000 :=
    u64_div_const a 1000000 ha (by norm_num)
  have h2 : addCPUclusters.acpmNsToMs a = a / 1000000 :=
    u64_div_const a 1000000 ha (by norm_num)
  have h3 : addPowerDomains.acpmNsToMs a = a / 1000000 :=
    u64_div_const a 1000000 ha (by norm_num)
  refine ⟨⟨h1, h2, h3⟩, ⟨?_, ?_, ?_⟩, ?_, ?_, ?_⟩
  · rw [h1]; exact Nat.div_le_self a 1000000
  · rw [h2]; exact Nat.div_le_self a 1000000
  · rw [h3]; exact Nat.div_le_self a 1000000
  · decide
  · decide
  · decide

/-- Witness for C1 at the input 1999999 ns, which truncates to 1 ms. -/
theorem C1_acpmNsToMs_witness :
    1999999 < 2 ^ 64 ∧ addSoC.acpmNsToMs 1999999 = 1999999 / 1000000
      ∧ addSoC.acpmNsToMs 1999999 ≤ 1999999 :=
  ⟨by norm_num, (C1_acpmNsToMs_truncating_quotient 1999999 (by norm_num)).1.1,
    (C1_acpmNsToMs_truncating_quotient 1999999 (by norm_num)).2.1.1⟩

/-- C2: every registered state configuration whose entry-count prefix is
`count:` and whose total-time prefix is `duration_usec:` has no entry-count
transform and a total-time transform equal to truncating division by 1000 on
unsigned 64-bit inputs; applied to a source reporting `count: 5` and
`duration_usec: 2000` it yields entry count 5 and total time 2 ms. -/
theorem C2_count_duration_usec_configs (catalog : List Channel) (cfg : StateResidencyConfig)
    (hmem : cfg ∈ (registered catalog).stateConfigs)
    (hcount : cfg.entryCountPrefix = "count:")
    (hdur : cfg.totalTimePrefix = "duration_usec:") (a : Nat) (ha : a < 2 ^ 64) :
    cfg.entryCountTransform = none
    ∧ (∃ f, cfg.totalTimeTransform = some f ∧ f a = a / 1000)
    ∧ (parseState cfg ["count: 5", "duration_usec: 2000"]).entryCount = some 5
    ∧ (parseState cfg ["count: 5", "duration_usec: 2000"]).totalTimeMs = some 2 := by
  have hc := mem_stateConfigs catalog cfg hmem
  simp only [List.mem_cons, List.mem_singleton, List.not_mem_nil, or_false] at hc
  rcases hc with h | h | h | h | h | h | h | h | h | h <;> subst h
  · exact absurd hcount (by decide)
  · exact absurd hcount (by decide)
  · exact absurd hcount (by decide)
  · exact absurd hcount (by decide)
  · exact ⟨rfl, ⟨_, rfl, u64_div_const a 1000 ha (by norm_num)⟩, by decide, by decide⟩
  · exact ⟨rfl, ⟨_, rfl, u64_div_const a 1000 ha (by norm_num)⟩, by decide, by decide⟩
  · exact absurd hcount (by decide)
  · exact ⟨rfl, ⟨_, rfl, u64_div_const a 1000 ha (by norm_num)⟩, by decide, by decide⟩
  · exact ⟨rfl, ⟨_, rfl, u64_div_const a 1000 ha (by norm_num)⟩, by decide, by decide⟩
  · exact absurd hcount (by decide)

/-- Witness for C2: the modem, GNSS and Wifi configurations are registered,
carry the two prefixes, and turn 2000 us into 2 ms. -/
theorem C2_count_duration_usec_witness :
    (addMobileRadio.powerStateConfig ∈ (registered []).stateConfigs
      ∧ addGNSS.gnssStateConfig ∈ (registered []).stateConfigs
      ∧ addWifi.stateConfig ∈ (registered []).stateConfigs)
    ∧ (∃ f, addMobileRadio.powerStateConfig.totalTimeTransform = some f
        ∧ f 2000 = 2000 / 1000)
    ∧ (∃ f, addGNSS.gnssStateConfig.totalTimeTransform = some f ∧ f 2000 = 2000 / 1000)
    ∧ (∃ f, addWifi.stateConfig.totalTimeTransform = some f ∧ f 2000 = 2000 / 1000) :=
  ⟨⟨modem_config_registered [], gnss_config_registered [], wifi_config_registered []⟩,
    (C2_count_duration_usec_configs [] _ (modem_config_registered []) rfl rfl 2000
      (by norm_num)).2.1,
    (C2_count_duration_usec_configs [] _ (gnss_config_registered []) rfl rfl 2000
      (by norm_num)).2.1,
    (C2_count_duration_usec_configs [] _ (wifi_config_registered []) rfl rfl 2000
      (by norm_num)).2.1⟩

/-- C3: when the channel was found and the meter read succeeds with
measurements `ms`, `getEnergyConsumed` returns a present result whose energy is
the signed 64-bit sum of the measured energies shifted right by one, which is
the floor of half that sum, and whose timestamp is that of the last
measurement, or 0 for an empty list. -/
theorem C3_getEnergyConsumed_half_sum (c : PlaceholderEnergyConsumer)
    (readEnergyMeter : List Int → Option (List EnergyMeasurement))
    (ms : List EnergyMeasurement) (hch : c.mChannelId ≠ -1)
    (hread : readEnergyMeter [c.mChannelId] = some ms) :
    (c.getEnergyConsumed readEnergyMeter).1
      = some { timestampMs := (ms.getLast?.map EnergyMeasurement.timestampMs).getD 0,
               energyUWs := Int.shiftRight (wrapI64 (ms.map EnergyMeasurement.energyUWs).sum) 1 }
    ∧ Int.shiftRight (wrapI64 (ms.map EnergyMeasurement.energyUWs).sum) 1
        = Int.fdiv (wrapI64 (ms.map EnergyMeasurement.energyUWs).sum) 2
    ∧ 2 * (Int.shiftRight (wrapI64 (ms.map EnergyMeasurement.energyUWs).sum) 1)
        ≤ wrapI64 (ms.map EnergyMeasurement.energyUWs).sum
    ∧ wrapI64 (ms.map EnergyMeasurement.energyUWs).sum
        < 2 * (Int.shiftRight (wrapI64 (ms.map EnergyMeasurement.energyUWs).sum) 1) + 2 := by
  refine ⟨getEnergyConsumed_of_read c readEnergyMeter ms hch hread, ?_, ?_, ?_⟩
  · rw [shiftRight_one, Int.fdiv_eq_ediv _ (by norm_num)]
  · rw [shiftRight_one]; omega
  · rw [shiftRight_one]; omega

/-- Witness for C3: measurements 100 and 300 at timestamp 1000 on the found
channel 7 give energy 200 and timestamp 1000. -/
theorem C3_getEnergyConsumed_witness :
    ((PlaceholderEnergyConsumer.mk .WIFI "Wifi" 7).getEnergyConsumed
        (fun _ => some [⟨7, 1000, 100⟩, ⟨7, 1000, 300⟩])).1
      = some { timestampMs := 1000, energyUWs := 200 } :=
  (C3_getEnergyConsumed_half_sum (PlaceholderEnergyConsumer.mk .WIFI "Wifi" 7)
    (fun _ => some [⟨7, 1000, 100⟩, ⟨7, 1000, 300⟩])
    [⟨7, 1000, 100⟩, ⟨7, 1000, 300⟩] (by decide) rfl).1.trans (by decide)

/-- C4: `getEnergyConsumed` returns an absent result exactly when the channel
was found and the meter read for that channel fails; nothing partially summed
is returned then. -/
theorem C4_getEnergyConsumed_absent_iff (c : PlaceholderEnergyConsumer)
    (readEnergyMeter : List Int → Option (List EnergyMeasurement)) :
    (c.getEnergyConsumed readEnergyMeter).1 = none
      ↔ (c.mChannelId ≠ -1 ∧ readEnergyMeter [c.mChannelId] = none) := by
  unfold PlaceholderEnergyConsumer.getEnergyConsumed
  by_cases hch : c.mChannelId = -1
  · simp [hch]
  · cases hread : readEnergyMeter [c.mChannelId] <;> simp [hch, hread]

/-- C5: the energy reported by `getEnergyConsumed` does not depend on the order
of the measurements a successful meter read returns. -/
theorem C5_energy_order_independent (c : PlaceholderEnergyConsumer)
    (r r' : List Int → Option (List EnergyMeasurement))
    (ms ms' : List EnergyMeasurement) (hperm : ms.Perm ms')
    (hr : r [c.mChannelId] = some ms) (hr' : r' [c.mChannelId] = some ms') :
    (c.getEnergyConsumed r).1.map EnergyConsumerResult.energyUWs
      = (c.getEnergyConsumed r').1.map EnergyConsumerResult.energyUWs := by
  by_cases hch : c.mChannelId = -1
  · unfold PlaceholderEnergyConsumer.getEnergyConsumed
    simp [hch]
  · rw [getEnergyConsumed_of_read c r ms hch hr, getEnergyConsumed_of_read c r' ms' hch hr',
      (hperm.map EnergyMeasurement.energyUWs).sum_eq]
    rfl

/-- Witness for C5: the readings 100, 300, 7 and their rotation give the same
energy, 203. -/
theorem C5_energy_order_independent_witness :
    ((PlaceholderEnergyConsumer.mk .BLUETOOTH "BT" 3).getEnergyConsumed
        (fun _ => some [⟨3, 10, 100⟩, ⟨3, 20, 300⟩, ⟨3, 30, 7⟩])).1.map
        EnergyConsumerResult.energyUWs = some 203
    ∧ ((PlaceholderEnergyConsumer.mk .BLUETOOTH "BT" 3).getEnergyConsumed
        (fun _ => some [⟨3, 20, 300⟩, ⟨3, 30, 7⟩, ⟨3, 10, 100⟩])).1.map
        EnergyConsumerResult.energyUWs = some 203 := by
  have h := C5_energy_order_independent (PlaceholderEnergyConsumer.mk .BLUETOOTH "BT" 3)
    (fun _ => some [⟨3, 10, 100⟩, ⟨3, 20, 300⟩, ⟨3, 30, 7⟩])
    (fun _ => some [⟨3, 20, 300⟩, ⟨3, 30, 7⟩, ⟨3, 10, 100⟩])
    [⟨3, 10, 100⟩, ⟨3, 20, 300⟩, ⟨3, 30, 7⟩] [⟨3, 20, 300⟩, ⟨3, 30, 7⟩, ⟨3, 10, 100⟩]
    (by decide) rfl rfl
  exact ⟨by decide, h ▸ by decide⟩

/-- C6: in the calls `addGs201CommonDataProviders` makes on the registry,
`setEnergyMeterDataProvider` is the first; all nine `addEnergyConsumer` calls
and both `getEnergyMeterInfo` queries of the placeholder constructors come
after it, and no query runs while the meter provider is unset. -/
theorem C6_meter_provider_set_first (catalog : List Channel) (p : PowerStats) :
    ∃ rest : List RegistryEvent,
      (addGs201CommonDataProviders catalog p).log
        = p.log ++ RegistryEvent.setEnergyMeterDataProvider :: rest
      ∧ rest.filterMap RegistryEvent.consumerName?
          = ["CPUCL0", "CPUCL1", "CPUCL2", "GPU", "MODEM", "GPS", "TPU", "Wifi", "BT"]
      ∧ rest.count (RegistryEvent.getEnergyMeterInfo true) = 2
      ∧ rest.count (RegistryEvent.getEnergyMeterInfo false) = 0 :=
  ⟨addGs201CommonDataProviders.laterEvents, log_addGs201CommonDataProviders catalog p,
    by decide, by decide, by decide⟩

/-- C7: registration is append-only. Whatever the registry held before,
`addGs201CommonDataProviders` keeps it in place, appends exactly 16
state-residency providers and exactly 9 energy consumers named CPUCL0, CPUCL1,
CPUCL2, GPU, MODEM, GPS, TPU, Wifi, BT in this order, and sets the meter
provider in exactly one call. -/
theorem C7_registration_append_only (catalog : List Channel) (p : PowerStats) :
    ∃ (sdps : List StateResidencyDataProvider) (consumers : List EnergyConsumer)
      (events : List RegistryEvent),
      (addGs201CommonDataProviders catalog p).stateResidencyDataProviders
        = p.stateResidencyDataProviders ++ sdps
      ∧ sdps.length = 16
      ∧ (addGs201CommonDataProviders catalog p).energyConsumers
        = p.energyConsumers ++ consumers
      ∧ consumers.map EnergyConsumer.name
        = ["CPUCL0", "CPUCL1", "CPUCL2", "GPU", "MODEM", "GPS", "TPU", "Wifi", "BT"]
      ∧ (addGs201CommonDataProviders catalog p).log = p.log ++ events
      ∧ events.count RegistryEvent.setEnergyMeterDataProvider = 1
      ∧ events.count RegistryEvent.addStateResidencyDataProvider = 16
      ∧ (events.filterMap RegistryEvent.consumerName?).length = 9
      ∧ (addGs201CommonDataProviders catalog p).energyMeterDataProvider
        = some { deviceNames := ["s2mpg12-odpm", "s2mpg13-odpm"], useSelector := true,
                 catalog := catalog } :=
  ⟨(registered catalog).stateResidencyDataProviders, (registered catalog).energyConsumers,
    RegistryEvent.setEnergyMeterDataProvider :: addGs201CommonDataProviders.laterEvents,
    providers_addGs201CommonDataProviders catalog p, by rw [providers_list]; rfl,
    consumers_addGs201CommonDataProviders catalog p, rfl,
    log_addGs201CommonDataProviders catalog p, by decide, by decide, by decide,
    meter_addGs201CommonDataProviders catalog p⟩

/-- C8 as stated fails: the entity name `MIF` is configured both in the DVFS
table of `addDvfsStats` and in the SoC table of `addSoC`, so the registered
entity names are not pairwise distinct. -/
theorem C8_entity_name_MIF_configured_twice :
    "MIF" ∈ addDvfsStats.cfgs.map DvfsConfig.powerEntityName
    ∧ "MIF" ∈ addSoC.cfgs.map PowerEntityConfig.name
    ∧ ¬ (registered []).entityNames.Nodup := by
  decide

/-- C8 amended: within each registered provider the entity names are pairwise
distinct, and across the providers every entity name is configured exactly
once except `MIF`, which is configured exactly twice (once by the DVFS
provider, once by the SoC provider). -/
theorem C8_entity_names_unique_except_MIF (catalog : List Channel) :
    (∀ pr ∈ (registered catalog).stateResidencyDataProviders, pr.entityNames.Nodup)
    ∧ (∀ n ∈ (registered catalog).entityNames,
        n ≠ "MIF" → (registered catalog).entityNames.count n = 1)
    ∧ (registered catalog).entityNames.count "MIF" = 2
    ∧ (addDvfsStats.cfgs.map DvfsConfig.powerEntityName).count "MIF" = 1
    ∧ (addSoC.cfgs.map PowerEntityConfig.name).count "MIF" = 1 := by
  have e : (registered catalog).stateResidencyDataProviders
      = (registered []).stateResidencyDataProviders := rfl
  have e' : (registered catalog).entityNames = (registered []).entityNames := by
    unfold PowerStats.entityNames
    rw [e]
  rw [e, e']
  decide

/-- C9: the three public methods leave the consumer's type, name and channel
id unchanged, and a later `getEnergyConsumed` observing the same meter answers
returns the same result whatever calls were made in between. -/
theorem C9_reads_are_stateless (c : PlaceholderEnergyConsumer)
    (readEnergyMeter : List Int → Option (List EnergyMeasurement))
    (calls : List ConsumerCall) :
    (c.getEnergyConsumed readEnergyMeter).2 = c
    ∧ c.getInfo.2 = c
    ∧ c.getConsumerName.2 = c
    ∧ c.afterCalls calls = c
    ∧ ((c.afterCalls calls).getEnergyConsumed readEnergyMeter).1
        = (c.getEnergyConsumed readEnergyMeter).1 := by
  refine ⟨afterCall_eq c (.getEnergyConsumed readEnergyMeter), rfl, rfl,
    afterCalls_eq c calls, ?_⟩
  rw [afterCalls_eq]

/-- C10: for every provider registered by `addGs201CommonDataProviders` or by
`addNFC`, the state names of each configured entity are pairwise distinct, and
so are the value strings of each DVFS entity. -/
theorem C10_state_names_distinct (catalog : List Channel) (path : String)
    (pr : StateResidencyDataProvider)
    (hmem : pr ∈ (addNFC (registered catalog) path).stateResidencyDataProviders) :
    (∀ l ∈ pr.stateNames, l.Nodup) ∧ (∀ l ∈ pr.dvfsValues, l.Nodup) := by
  have hall : ∀ q ∈ (registered []).stateResidencyDataProviders,
      (∀ l ∈ q.stateNames, l.Nodup) ∧ (∀ l ∈ q.dvfsValues, l.Nodup) := by decide
  have e : (addNFC (registered catalog) path).stateResidencyDataProviders
      = (registered []).stateResidencyDataProviders
        ++ [StateResidencyDataProvider.Generic path addNFC.cfgs] := rfl
  rw [e, List.mem_append, List.mem_singleton] at hmem
  rcases hmem with h | h
  · exact hall pr h
  · subst h
    refine ⟨?_, ?_⟩
    · show ∀ l ∈ addNFC.cfgs.map (fun c => c.stateHeaders.map Prod.fst), l.Nodup
      decide
    · intro l hl
      cases hl

/-- Witness for C10: the DVFS provider is registered; the state names of its
five entities and their value strings are pairwise distinct. -/
theorem C10_state_names_distinct_witness :
    (∀ l ∈ addDvfsStats.cfgs.map (fun c => c.states.map Prod.fst), l.Nodup)
    ∧ (∀ l ∈ addDvfsStats.cfgs.map (fun c => c.states.map Prod.snd), l.Nodup) :=
  C10_state_names_distinct [] "/sys/class/nfc/power_stats"
    (.Dvfs "/sys/devices/platform/acpm_stats/fvp_stats" addDvfsStats.NS_TO_MS
      addDvfsStats.cfgs)
    (by
      have e : (addNFC (registered []) "/sys/class/nfc/power_stats").stateResidencyDataProviders
          = (registered []).stateResidencyDataProviders
            ++ [StateResidencyDataProvider.Generic "/sys/class/nfc/power_stats" addNFC.cfgs] :=
        rfl
      rw [e, providers_list]
      simp)

/-- C11: when the catalog seen by the constructor has no channel named
`VSYS_PWR_WLAN_BT`, `getEnergyConsumed` passes nothing to `readEnergyMeter` and
returns a present result with timestamp 0 and energy 0, whatever the meter
would have answered. -/
theorem C11_no_channel_zero_result (channels : List Channel) (type : EnergyConsumerType)
    (name : String) (readEnergyMeter : List Int → Option (List EnergyMeasurement))
    (hnone : ∀ c ∈ channels, c.name ≠ "VSYS_PWR_WLAN_BT") :
    ((PlaceholderEnergyConsumer.new channels type name).getEnergyConsumedTraced
        readEnergyMeter).2 = []
    ∧ ((PlaceholderEnergyConsumer.new channels type name).getEnergyConsumed
        readEnergyMeter).1 = some { timestampMs := 0, energyUWs := 0 } := by
  have hid : (PlaceholderEnergyConsumer.new channels type name).mChannelId = -1 :=
    scanChannels_of_no_match (-1) channels hnone
  refine ⟨?_, ?_⟩
  · rw [getEnergyConsumedTraced_snd, if_pos hid]
  · unfold PlaceholderEnergyConsumer.getEnergyConsumed
    simp [hid]
    rfl

/-- Witness for C11: a catalog of two other channels and a meter whose reads
all fail still give the present result with timestamp 0 and energy 0, with no
read issued. -/
theorem C11_no_channel_zero_result_witness :
    ((PlaceholderEnergyConsumer.new [⟨0, "S4M_VDD_CPUCL0"⟩, ⟨1, "VSYS_PWR_MODEM"⟩]
        .WIFI "Wifi").getEnergyConsumedTraced (fun _ => none)).2 = []
    ∧ ((PlaceholderEnergyConsumer.new [⟨0, "S4M_VDD_CPUCL0"⟩, ⟨1, "VSYS_PWR_MODEM"⟩]
        .WIFI "Wifi").getEnergyConsumed (fun _ => none)).1
      = some { timestampMs := 0, energyUWs := 0 } :=
  C11_no_channel_zero_result [⟨0, "S4M_VDD_CPUCL0"⟩, ⟨1, "VSYS_PWR_MODEM"⟩] .WIFI "Wifi"
    (fun _ => none) (by decide)

/-- C12: the Wifi and BT placeholder consumers registered by
`addPlaceholderEnergyConsumers` are built from the same catalog; when the
channel was found and the meter read succeeds with an int64 total `E` that is
non-negative, both report the same energy `h`, with `0 ≤ h`,
`E - 1 ≤ h + h ≤ E`, and `h + h = E` exactly when `E` is even. -/
theorem C12_wifi_bt_never_over_report (catalog : List Channel)
    (readEnergyMeter : List Int → Option (List EnergyMeasurement))
    (ms : List EnergyMeasurement)
    (hfound : (PlaceholderEnergyConsumer.new catalog .WIFI "Wifi").mChannelId ≠ -1)
    (hread : readEnergyMeter [(PlaceholderEnergyConsumer.new catalog .WIFI "Wifi").mChannelId]
      = some ms)
    (hE : 0 ≤ wrapI64 (ms.map EnergyMeasurement.energyUWs).sum) :
    (∃ front, (registered catalog).energyConsumers
        = front ++ [EnergyConsumer.Placeholder
                      (PlaceholderEnergyConsumer.new catalog .WIFI "Wifi"),
                    EnergyConsumer.Placeholder
                      (PlaceholderEnergyConsumer.new catalog .BLUETOOTH "BT")])
    ∧ ∃ h : Int,
        ((PlaceholderEnergyConsumer.new catalog .WIFI "Wifi").getEnergyConsumed
            readEnergyMeter).1.map EnergyConsumerResult.energyUWs = some h
        ∧ ((PlaceholderEnergyConsumer.new catalog .BLUETOOTH "BT").getEnergyConsumed
            readEnergyMeter).1.map EnergyConsumerResult.energyUWs = some h
        ∧ 0 ≤ h
        ∧ wrapI64 (ms.map EnergyMeasurement.energyUWs).sum - 1 ≤ h + h
        ∧ h + h ≤ wrapI64 (ms.map EnergyMeasurement.energyUWs).sum
        ∧ (h + h = wrapI64 (ms.map EnergyMeasurement.energyUWs).sum
            ↔ wrapI64 (ms.map EnergyMeasurement.energyUWs).sum % 2 = 0) := by
  refine ⟨⟨_, placeholders_registered catalog⟩,
    Int.shiftRight (wrapI64 (ms.map EnergyMeasurement.energyUWs).sum) 1, ?_, ?_, ?_⟩
  · rw [getEnergyConsumed_of_read _ readEnergyMeter ms hfound hread]
    rfl
  · rw [getEnergyConsumed_of_read (PlaceholderEnergyConsumer.new catalog .BLUETOOTH "BT")
      readEnergyMeter ms hfound hread]
    rfl
  · rw [shiftRight_one]
    omega

/-- Witness for C12: with the channel at id 7 and readings 100 and 301 (total
401, odd), Wifi and BT both report 200, and 400 lies between 400 and 401. -/
theorem C12_wifi_bt_never_over_report_witness :
    ((PlaceholderEnergyConsumer.new [⟨7, "VSYS_PWR_WLAN_BT"⟩] .WIFI "Wifi").getEnergyConsumed
        (fun _ => some [⟨7, 1000, 100⟩, ⟨7, 1000, 301⟩])).1.map
        EnergyConsumerResult.energyUWs = some 200
    ∧ ((PlaceholderEnergyConsumer.new [⟨7, "VSYS_PWR_WLAN_BT"⟩] .BLUETOOTH
        "BT").getEnergyConsumed
        (fun _ => some [⟨7, 1000, 100⟩, ⟨7, 1000, 301⟩])).1.map
        EnergyConsumerResult.energyUWs = some 200 := by
  obtain ⟨_, h, hw, hb, _, _, _, _⟩ :=
    C12_wifi_bt_never_over_report [⟨7, "VSYS_PWR_WLAN_BT"⟩]
      (fun _ => some [⟨7, 1000, 100⟩, ⟨7, 1000, 301⟩])
      [⟨7, 1000, 100⟩, ⟨7, 1000, 301⟩] (by decide) rfl (by decide)
  have h200 : h = 200 := by
    have e : ((PlaceholderEnergyConsumer.new [⟨7, "VSYS_PWR_WLAN_BT"⟩] .WIFI
        "Wifi").getEnergyConsumed
        (fun _ => some [⟨7, 1000, 100⟩, ⟨7, 1000, 301⟩])).1.map
        EnergyConsumerResult.energyUWs = some 200 := by decide
    rw [e] at hw
    exact (Option.some.inj hw).symm
  subst h200
  exact ⟨hw, hb⟩

/-- C14: the keys of `stateCoeffs` in `addTPU` are, as a set, the value strings
of the MHz-named states of the TPU entity in `addDvfsStats`, namely 227000,
625000, 845000 and 1066000: every TPU frequency has a coefficient and every
coefficient key is a TPU frequency. -/
theorem C14_tpu_coeff_keys_match_dvfs :
    (∀ k : String, k ∈ addTPU.stateCoeffKeys ↔ k ∈ addDvfsStats.mhzValues "TPU")
    ∧ (∀ k : String, k ∈ addTPU.stateCoeffKeys
        ↔ k ∈ ["227000", "625000", "845000", "1066000"])
    ∧ addTPU.stateCoeffKeys.Perm (addDvfsStats.mhzValues "TPU")
    ∧ addTPU.stateCoeffKeys.Nodup
    ∧ (∀ v ∈ addDvfsStats.mhzValues "TPU", (addTPU.stateCoeffs.lookup v).isSome = true)
    ∧ (∀ kv ∈ addTPU.stateCoeffs, kv.1 ∈ addDvfsStats.mhzValues "TPU") := by
  have hperm : addTPU.stateCoeffKeys.Perm (addDvfsStats.mhzValues "TPU") := by decide
  have hkeys : addTPU.stateCoeffKeys = ["227000", "625000", "845000", "1066000"] := by
    decide
  refine ⟨fun k => hperm.mem_iff, fun k => by rw [hkeys], hperm, by decide, by decide,
    by decide⟩

end Gs201
